import Mathlib

/-!
Verification of the WiFi Tester Pro credential and settings dialogs
(`src/gui/passwords_dialog.py` and `src/gui/settings_dialog.py`).

The Python code is shallowly embedded: each dialog method becomes a pure
Lean function over explicit inputs (driver collaborator, field values,
file state); raising collaborator calls are modelled with `Except`,
optional capabilities with `Option`, and the UI effects of a call
(messages shown, widget state, file writes) are returned as data.
-/

namespace WifiTesterPro

/-! ## Driver collaborator (capability-probed, each call may raise)

Capabilities of the OS WiFi driver, probed with `hasattr` in the source:
an absent capability is `none`; a present one is `some r` where `r` is the
outcome of calling it (`Except.error e` models a raised exception with
description `e`). -/

/-- Record returned by `get_current_connection` (only the `ssid` field is
read by the dialog code). -/
structure CurrentConnection where
  ssid : String
deriving DecidableEq

/-- The driver collaborator as used by `passwords_dialog.py`. -/
structure Driver where
  get_all_saved_passwords : Option (Except String (List (String × Option String)))
  get_saved_profiles : Option (Except String (List String))
  connect : Option (String → Except String Bool)
  get_current_connection : Option (Except String (Option CurrentConnection))

/-! ## Code-point string comparison (Python `sorted` on `str`)

Python compares strings lexicographically by code point; the embedding
uses an explicit comparison on `String.data` because it must reduce in
the kernel. -/

/-- Strict lexicographic order on char lists by code point; the order
Python uses to compare `str` values. -/
def lexLt : List Char → List Char → Bool
  | _, [] => false
  | [], _ :: _ => true
  | a :: as, b :: bs => a < b || (a == b && lexLt as bs)

/-- Reflexive code-point order on strings (`a <= b` in Python). -/
def ordinalLe (a b : String) : Bool := !(lexLt b.data a.data)

/-- Strict code-point order on strings (`a < b` in Python). -/
def ordinalLt (a b : String) : Bool := lexLt a.data b.data

/-- One step of insertion sort with respect to `ordinalLe`. -/
def insertProfile (x : String) : List String → List String
  | [] => [x]
  | y :: ys => if ordinalLe x y then x :: y :: ys else y :: insertProfile x ys

/-- Embedding of Python `sorted` on a list of profile names: a stable
comparison sort; insertion sort is used so it reduces in the kernel. -/
def sortProfiles : List String → List String
  | [] => []
  | x :: xs => insertProfile x (sortProfiles xs)

/-! ## PasswordRow (`passwords_dialog.py` lines 14-205) -/

/-- UI state of one `PasswordRow` as far as the dialog logic reads or
writes it: the row fields set in `__init__` plus the test-button state
set in `_create_ui`. -/
structure PasswordRow where
  profile_name : String
  password : Option String
  password_visible : Bool
  test_btn_text : String
  test_btn_enabled : Bool
deriving DecidableEq

/-- `PasswordRow.__init__` (lines 17-39) together with `_create_ui`:
visibility starts hidden and the test button starts as the enabled idle
icon. -/
def PasswordRow.init (profile_name : String) (password : Option String) : PasswordRow :=
  { profile_name := profile_name
    password := password
    password_visible := false
    test_btn_text := "🔗"
    test_btn_enabled := true }

/-- `PasswordRow._get_password_display` (lines 114-121). -/
def PasswordRow.get_password_display (r : PasswordRow) : String :=
  match r.password with
  | none => "No password / Open network"
  | some p => if r.password_visible then p else String.mk (List.replicate (min p.length 12) '•')

/-- Effect of `PasswordRow._copy_password` (lines 134-147): either the
clipboard receives exactly one text (clear followed by append) and the
button briefly shows the feedback glyph, or a clipboard fault is shown
as an error, or an informational notice is shown and the clipboard is
never touched. -/
inductive CopyEffect where
  | copied (text : String) (feedback : String)
  | copy_error (shown : String)
  | info_notice (shown : String)
deriving DecidableEq

/-- `PasswordRow._copy_password` (lines 134-147). The Python guard
`if self._password:` is truthiness: both `None` and the empty string
take the informational branch. `clip_fault = some e` models the
clipboard operations raising an exception described by `e`. -/
def PasswordRow.copy_password (r : PasswordRow) (clip_fault : Option String) : CopyEffect :=
  match r.password with
  | none => .info_notice "No password to copy"
  | some p =>
    if p = "" then .info_notice "No password to copy"
    else
      match clip_fault with
      | some e => .copy_error ("Could not copy to clipboard: " ++ e)
      | none => .copied p "✓"

/-- `current and current.ssid == self._profile_name` (line 171): a `None`
record is falsy, otherwise the identifiers are compared. -/
def currentMatches (current : Option CurrentConnection) (profile_name : String) : Bool :=
  match current with
  | some c => c.ssid == profile_name
  | none => false

/-- The nested `do_test` worker of `PasswordRow._test_connection`
(lines 155-186): returns the `(success, message)` pair that the worker
hands to `self.after(0, ...)` for `_show_test_result`. The whole body is
wrapped in `try/except Exception`, so a raised fault becomes the error
message, while `success` keeps whatever value it had when the fault was
raised. The `time.sleep(2)` settling wait cannot raise and has no
result, so it does not appear. -/
def do_test (driver : Option Driver) (profile_name : String) : Bool × String :=
  match driver with
  | none => (false, "❌ Driver not available for connection test")
  | some drv =>
    match drv.connect with
    | none => (false, "❌ Driver not available for connection test")
    | some connect_fn =>
      match connect_fn profile_name with
      | .error e => (false, "❌ Error: " ++ e)
      | .ok success =>
        if success then
          match drv.get_current_connection with
          | some (.error e) => (true, "❌ Error: " ++ e)
          | some (.ok current) =>
            if currentMatches current profile_name then
              (true, "✅ Successfully connected to \x27" ++ profile_name ++ "\x27")
            else
              (true, "⚠️ Connection initiated but not verified")
          | none => (true, "✅ Connection command sent to \x27" ++ profile_name ++ "\x27")
        else
          (false, "❌ Could not connect to \x27" ++ profile_name ++ "\x27")

/-- What `PasswordRow._show_test_result` (lines 192-205) does on the UI
thread with the pair produced by `do_test`. -/
structure TestReport where
  btn_text : String
  btn_enabled : Bool
  msg_title : String
  msg_type : String
  message : String
deriving DecidableEq

/-- `PasswordRow._show_test_result` (lines 192-205). -/
def show_test_result (success : Bool) (message : String) : TestReport :=
  { btn_text := if success then "✅" else "❌"
    btn_enabled := true
    msg_title := "Connection Test"
    msg_type := if success then "info" else "warning"
    message := message }

/-! ## SavedPasswordsDialog (`passwords_dialog.py` lines 208-453) -/

/-- Outcome of the background `load` worker of
`SavedPasswordsDialog._load_passwords`: either the worker reaches its
final line and schedules `_display_passwords` on the UI thread with the
fetched mapping, or an uncaught exception terminates the worker thread
before that line. -/
inductive LoadOutcome where
  | delivered (result : List (String × Option String))
  | crashed (err : String)
deriving DecidableEq

/-- Whether the outcome schedules `_display_passwords` (the render step)
on the UI-owning thread. -/
def rendersResult : LoadOutcome → Bool
  | .delivered _ => true
  | .crashed _ => false

/-- The nested `load` worker of `SavedPasswordsDialog._load_passwords`
(lines 380-391). The body has no `try/except`: a fault raised by either
driver call propagates and the `self.after(0, self._display_passwords)`
line is never reached. -/
def load (driver : Option Driver) : LoadOutcome :=
  match driver with
  | none => .delivered []
  | some drv =>
    match drv.get_all_saved_passwords with
    | some (.ok m) => .delivered m
    | some (.error e) => .crashed e
    | none =>
      match drv.get_saved_profiles with
      | some (.ok profiles) => .delivered (profiles.map (fun p => (p, none)))
      | some (.error e) => .crashed e
      | none => .delivered []

/-- Python dict lookup `self._passwords[profile]` on the entry mapping,
modelled on an association list with unique keys; every key looked up by
the dialog comes from the mapping itself, so the `none` fallback for an
absent key is never reached by the embedded callers. -/
def dict_get : List (String × Option String) → String → Option String
  | [], _ => none
  | (k', v) :: rest, k => if k' = k then v else dict_get rest k

/-- What `SavedPasswordsDialog._display_passwords` leaves in the
scrollable frame. -/
inductive DisplayResult where
  | empty_state (message : String)
  | rows (rs : List PasswordRow)
deriving DecidableEq

/-- The rows rendered by a `DisplayResult` (the empty state has none). -/
def rowsOf : DisplayResult → List PasswordRow
  | .empty_state _ => []
  | .rows rs => rs

/-- `SavedPasswordsDialog._display_passwords` (lines 396-423): empty
mapping shows the fixed empty-state label; otherwise one row per profile
name, in Python `sorted` order of the names. -/
def display_passwords (m : List (String × Option String)) : DisplayResult :=
  if m.isEmpty then .empty_state "No saved WiFi networks found"
  else .rows ((sortProfiles (m.map Prod.fst)).map (fun p => PasswordRow.init p (dict_get m p)))

/-- Python `x or d` on an optional string (line 447): `None` and the
empty string are falsy and yield the fallback. -/
def py_or_str (p : Option String) (d : String) : String :=
  match p with
  | none => d
  | some s => if s = "" then d else s

/-- One per-entry block written by `SavedPasswordsDialog._export_passwords`
(lines 445-448). -/
def export_entry_block (profile : String) (password : Option String) : String :=
  "Network: " ++ profile ++ "\n" ++
  "Password: " ++ py_or_str password "(no password)" ++ "\n" ++
  String.mk (List.replicate 30 '-') ++ "\n"

/-! ## Settings dialog (`settings_dialog.py`) -/

/-- A scalar settings value (the schema only uses ints, booleans and
strings). -/
inductive SettingVal where
  | int (i : Int)
  | bool (b : Bool)
  | str (s : String)
deriving DecidableEq

/-- The settings dict, as an association list with unique keys in
insertion order (Python dict semantics). -/
abbrev Settings := List (String × SettingVal)

/-- Python dict read `d.get(k)` / `d[k]`. -/
def getKey : Settings → String → Option SettingVal
  | [], _ => none
  | (k', v) :: rest, k => if k' = k then some v else getKey rest k

/-- Python dict write `d[k] = v`: replaces the value of an existing key
in place, otherwise appends the key at the end. -/
def setKey : Settings → String → SettingVal → Settings
  | [], k, v => [(k, v)]
  | (k', v') :: rest, k, v =>
    if k' = k then (k, v) :: rest else (k', v') :: setKey rest k v

/-- Python `d.update(other)`: each key of `other`, in order, overwrites
or extends `d`. -/
def dict_update (st : Settings) : List (String × SettingVal) → Settings
  | [] => st
  | (k, v) :: rest => dict_update (setKey st k v) rest

/-- Value of the last occurrence of a key in a pair list (the value a
Python dict built from that list would hold). -/
def lastLookup : List (String × SettingVal) → String → Option SettingVal
  | [], _ => none
  | (k', v) :: rest, k =>
    match lastLookup rest k with
    | some w => some w
    | none => if k' = k then some v else none

/-- The `default_settings` literal of `SettingsDialog._load_settings`
(lines 81-90). -/
def default_settings : Settings :=
  [("scan_timeout", .int 15),
   ("auto_refresh", .bool true),
   ("refresh_interval", .int 30),
   ("show_hidden_networks", .bool true),
   ("sound_enabled", .bool false),
   ("log_level", .str "INFO"),
   ("theme", .str "dark"),
   ("default_interface", .str "")]

/-- State of the persisted `settings.json` file as `_load_settings` can
encounter it: absent, unreadable or unparsable (any raising open or
`json.load`), or parsed to a key/value mapping. -/
inductive SettingsFile where
  | missing
  | malformed
  | valid (entries : List (String × SettingVal))

/-- `SettingsDialog._load_settings` (lines 78-100): defaults, overlaid
with the persisted entries when the file exists and parses; any raised
error is caught and logged, leaving the defaults. -/
def load_settings : SettingsFile → Settings
  | .missing => default_settings
  | .malformed => default_settings
  | .valid entries => dict_update default_settings entries

/-- Leading and trailing whitespace stripping performed by Python
`int(str)` before parsing (Python also strips some non-ASCII space
characters, which no settings field produces). -/
def pyStrip (cs : List Char) : List Char :=
  ((cs.dropWhile Char.isWhitespace).reverse.dropWhile Char.isWhitespace).reverse

/-- Tail of the digit grammar of Python `int(str)`: digits with single
underscores allowed between digits. -/
def pyDigitsTail : List Char → Bool
  | [] => true
  | ['_'] => false
  | '_' :: c :: rest => c.isDigit && pyDigitsTail rest
  | c :: rest => c.isDigit && pyDigitsTail rest

/-- Whole digit-part grammar of Python `int(str)`: nonempty, starts with
a digit, underscores only between digits. -/
def pyDigitsOk : List Char → Bool
  | [] => false
  | c :: rest => c.isDigit && pyDigitsTail rest

/-- Decimal value of a digit list, ignoring underscore separators. -/
def natOfDigits (cs : List Char) : Nat :=
  cs.foldl (fun n c => if c = '_' then n else 10 * n + (c.toNat - '0'.toNat)) 0

/-- Python `repr` of a simple string (accurate for strings without
quotes, backslashes or control characters, which is all the error path
here ever formats). -/
def pyRepr (s : String) : String := "\x27" ++ s ++ "\x27"

/-- Python `int(s)` for a base-10 string: strips whitespace, accepts an
optional sign and an underscore-separated digit run, and otherwise
raises `ValueError` with the standard message quoting the original
string. -/
def pyInt (s : String) : Except String Int :=
  let stripped := pyStrip s.data
  let signed : Int × List Char :=
    match stripped with
    | '+' :: rest => (1, rest)
    | '-' :: rest => (-1, rest)
    | rest => (1, rest)
  if pyDigitsOk signed.2 then .ok (signed.1 * (natOfDigits signed.2 : Int))
  else .error ("invalid literal for int() with base 10: " ++ pyRepr s)

/-- The editable widget values read by `SettingsDialog._apply_settings`:
the two integer fields are free-text entries (strings), the rest are
switches and option menus. -/
structure FieldVars where
  timeout_var : String
  hidden_var : Bool
  refresh_var : Bool
  interval_var : String
  iface_var : String
  theme_var : String
  log_var : String
  sound_var : Bool
deriving DecidableEq

/-- Everything `SettingsDialog._apply_settings` leaves behind: the
in-memory settings dict, the persisted file (`none` mirrors a missing
file), the theme applied live (if any), whether the `on_save` callback
ran, the message box shown, and whether the dialog closed. -/
structure ApplyOutcome where
  settings : Settings
  file : Option Settings
  theme_applied : Option String
  callback_invoked : Bool
  shown_title : String
  shown_message : String
  shown_kind : String
  dialog_closed : Bool
deriving DecidableEq

/-- `SettingsDialog._apply_settings` (lines 359-391) together with
`_save_settings` (lines 102-112). The two `int(...)` conversions can
raise `ValueError`, which the surrounding `except ValueError` turns into
an error box without reaching the save; assignments made before the
raise stay in the in-memory dict. `_save_settings` catches and logs its
own I/O faults; the write is modelled as succeeding, which is the case
relevant to the validation claims. -/
def apply_settings (v : FieldVars) (on_save_present : Bool) (st0 : Settings)
    (file0 : Option Settings) : ApplyOutcome :=
  match pyInt v.timeout_var with
  | .error e =>
    { settings := st0, file := file0, theme_applied := none, callback_invoked := false
      shown_title := "Error", shown_message := "Invalid value: " ++ e
      shown_kind := "error", dialog_closed := false }
  | .ok t =>
    let st1 := setKey st0 "scan_timeout" (.int t)
    let st2 := setKey st1 "show_hidden_networks" (.bool v.hidden_var)
    let st3 := setKey st2 "auto_refresh" (.bool v.refresh_var)
    match pyInt v.interval_var with
    | .error e =>
      { settings := st3, file := file0, theme_applied := none, callback_invoked := false
        shown_title := "Error", shown_message := "Invalid value: " ++ e
        shown_kind := "error", dialog_closed := false }
    | .ok i =>
      let st4 := setKey st3 "refresh_interval" (.int i)
      let st5 := setKey st4 "default_interface" (.str v.iface_var)
      let st6 := setKey st5 "theme" (.str v.theme_var)
      let st7 := setKey st6 "log_level" (.str v.log_var)
      let st8 := setKey st7 "sound_enabled" (.bool v.sound_var)
      { settings := st8, file := some st8
        theme_applied := if v.theme_var = "system" then none else some v.theme_var
        callback_invoked := on_save_present
        shown_title := "Settings", shown_message := "Settings saved successfully!"
        shown_kind := "info", dialog_closed := true }

/-! ## Substring search (used to state that a message does not name a
field) -/

/-- Boolean prefix test on char lists. -/
def listPre : List Char → List Char → Bool
  | [], _ => true
  | _ :: _, [] => false
  | a :: as, b :: bs => a == b && listPre as bs

/-- Boolean substring test on char lists. -/
def hasSub : List Char → List Char → Bool
  | [], needle => listPre needle []
  | c :: t, needle => listPre needle (c :: t) || hasSub t needle

/-- Boolean substring test on strings. -/
def strContains (hay needle : String) : Bool := hasSub hay.data needle.data

/-! ## Concrete collaborators used by the closed theorems -/

/-- Driver whose bulk password call raises. -/
def bad_fetch_driver : Driver :=
  { get_all_saved_passwords := some (.error "netsh failure")
    get_saved_profiles := none
    connect := none
    get_current_connection := none }

/-- Driver offering only the profile-name listing capability. -/
def profiles_only_driver : Driver :=
  { get_all_saved_passwords := none
    get_saved_profiles := some (.ok ["beta", "alpha"])
    connect := none
    get_current_connection := none }

/-- Driver exposing both list capabilities, to exhibit that only the
bulk one is consulted. -/
def bulk_and_profiles_driver : Driver :=
  { get_all_saved_passwords := some (.ok [("Home", some "pw")])
    get_saved_profiles := some (.ok ["Ignored"])
    connect := none
    get_current_connection := none }

/-- Driver whose connect succeeds but whose current-connection query
raises. -/
def query_fault_driver : Driver :=
  { get_all_saved_passwords := none
    get_saved_profiles := none
    connect := some (fun _ => .ok true)
    get_current_connection := some (.error "query failed") }

/-- Driver whose connect call raises. -/
def connect_fault_driver : Driver :=
  { get_all_saved_passwords := none
    get_saved_profiles := none
    connect := some (fun _ => .error "boom")
    get_current_connection := none }

/-- Driver that connects and reports the matching network as current. -/
def verified_driver : Driver :=
  { get_all_saved_passwords := none
    get_saved_profiles := none
    connect := some (fun _ => .ok true)
    get_current_connection := some (.ok (some { ssid := "Net" })) }

/-- Field values with a non-numeric scan timeout. -/
def bad_timeout_vars : FieldVars :=
  { timeout_var := "abc", hidden_var := true, refresh_var := true
    interval_var := "30", iface_var := "Auto", theme_var := "dark"
    log_var := "INFO", sound_var := false }

/-- Field values with a non-numeric refresh interval. -/
def bad_interval_vars : FieldVars :=
  { timeout_var := "15", hidden_var := true, refresh_var := true
    interval_var := "3x0", iface_var := "Auto", theme_var := "dark"
    log_var := "INFO", sound_var := false }

/-! ## Properties of the code-point order -/

/-- The strict code-point order is irreflexive. -/
theorem lexLt_irrefl (l : List Char) : lexLt l l = false := by
  induction l with
  | nil => rfl
  | cons a as ih => simp [lexLt, ih]

/-- The strict code-point order is transitive. -/
theorem lexLt_trans (as : List Char) : ∀ bs cs : List Char,
    lexLt as bs = true → lexLt bs cs = true → lexLt as cs = true := by
  induction as with
  | nil =>
    intro bs cs h1 h2
    cases cs with
    | nil =>
      cases bs with
      | nil => exact h1
      | cons b bs => simp [lexLt] at h2
    | cons c cs => rfl
  | cons a as ih =>
    intro bs cs h1 h2
    cases bs with
    | nil => simp [lexLt] at h1
    | cons b bs =>
      cases cs with
      | nil => simp [lexLt] at h2
      | cons c cs =>
        simp only [lexLt, Bool.or_eq_true, Bool.and_eq_true, decide_eq_true_eq,
          beq_iff_eq] at h1 h2 ⊢
        rcases h1 with h1 | ⟨hab, h1⟩
        · rcases h2 with h2 | ⟨hbc, h2⟩
          · exact Or.inl (lt_trans h1 h2)
          · subst hbc; exact Or.inl h1
        · subst hab
          rcases h2 with h2 | ⟨hbc, h2⟩
          · exact Or.inl h2
          · subst hbc; exact Or.inr ⟨rfl, ih bs cs h1 h2⟩

/-- Two lists neither of which precedes the other are equal. -/
theorem lexLt_connex (as : List Char) : ∀ bs : List Char,
    lexLt as bs = false → lexLt bs as = false → as = bs := by
  induction as with
  | nil =>
    intro bs h1 h2
    cases bs with
    | nil => rfl
    | cons b bs => simp [lexLt] at h1
  | cons a as ih =>
    intro bs h1 h2
    cases bs with
    | nil => simp [lexLt] at h2
    | cons b bs =>
      simp only [lexLt, Bool.or_eq_false_iff, Bool.and_eq_false_iff,
        decide_eq_false_iff_not, beq_eq_false_iff_ne, ne_eq] at h1 h2
      obtain ⟨hnab, h1⟩ := h1
      obtain ⟨hnba, h2⟩ := h2
      have hab : a = b := le_antisymm (not_lt.mp hnba) (not_lt.mp hnab)
      subst hab
      have h1' : lexLt as bs = false := by
        rcases h1 with h | h
        · exact absurd rfl h
        · exact h
      have h2' : lexLt bs as = false := by
        rcases h2 with h | h
        · exact absurd rfl h
        · exact h
      rw [ih bs h1' h2']

/-- The strict code-point order is asymmetric. -/
theorem lexLt_asymm {as bs : List Char} (h : lexLt as bs = true) : lexLt bs as = false := by
  cases hx : lexLt bs as with
  | false => rfl
  | true =>
    have := lexLt_trans as bs as h hx
    rw [lexLt_irrefl] at this
    exact Bool.noConfusion this

/-- Strings with equal character data are equal. -/
theorem string_eq_of_data {a b : String} (h : a.data = b.data) : a = b := by
  cases a
  cases b
  exact congrArg String.mk h

/-- The reflexive code-point order is total. -/
theorem ordinalLe_total (a b : String) : ordinalLe a b = true ∨ ordinalLe b a = true := by
  simp only [ordinalLe, Bool.not_eq_true']
  cases hx : lexLt b.data a.data with
  | false => exact Or.inl rfl
  | true => exact Or.inr (lexLt_asymm hx)

/-- The reflexive code-point order is transitive. -/
theorem ordinalLe_trans {a b c : String} (h1 : ordinalLe a b = true)
    (h2 : ordinalLe b c = true) : ordinalLe a c = true := by
  simp only [ordinalLe, Bool.not_eq_true'] at h1 h2 ⊢
  cases hbc : lexLt b.data c.data with
  | true =>
    cases hca : lexLt c.data a.data with
    | false => rfl
    | true =>
      have := lexLt_trans _ _ _ hbc hca
      rw [h1] at this
      exact Bool.noConfusion this
  | false =>
    have hbceq : b.data = c.data := lexLt_connex _ _ hbc h2
    rw [← hbceq]
    exact h1

/-- Weak order plus distinctness gives the strict order. -/
theorem ordinalLt_of_le_ne {a b : String} (h : ordinalLe a b = true) (hne : a ≠ b) :
    ordinalLt a b = true := by
  simp only [ordinalLe, Bool.not_eq_true'] at h
  cases hx : lexLt a.data b.data with
  | true => simp [ordinalLt, hx]
  | false => exact absurd (string_eq_of_data (lexLt_connex _ _ hx h)) hne

/-! ## Properties of `sortProfiles` -/

/-- Inserting permutes to a cons. -/
theorem insertProfile_perm (x : String) (l : List String) :
    (insertProfile x l).Perm (x :: l) := by
  induction l with
  | nil => exact List.Perm.refl _
  | cons y ys ih =>
    simp only [insertProfile]
    by_cases h : ordinalLe x y = true
    · rw [if_pos h]
    · rw [if_neg h]
      exact (ih.cons y).trans (List.Perm.swap x y ys)

/-- Sorting permutes the input. -/
theorem sortProfiles_perm (l : List String) : (sortProfiles l).Perm l := by
  induction l with
  | nil => exact List.Perm.refl _
  | cons x xs ih => exact (insertProfile_perm x (sortProfiles xs)).trans (ih.cons x)

/-- Inserting into a sorted list keeps it sorted. -/
theorem pairwise_insertProfile {x : String} {l : List String}
    (h : l.Pairwise (fun a b => ordinalLe a b = true)) :
    (insertProfile x l).Pairwise (fun a b => ordinalLe a b = true) := by
  induction l with
  | nil => simp [insertProfile]
  | cons y ys ih =>
    rw [List.pairwise_cons] at h
    obtain ⟨hy, hys⟩ := h
    simp only [insertProfile]
    by_cases hxy : ordinalLe x y = true
    · rw [if_pos hxy, List.pairwise_cons]
      refine ⟨?_, ?_⟩
      · intro z hz
        rcases List.mem_cons.mp hz with rfl | hz
        · exact hxy
        · exact ordinalLe_trans hxy (hy z hz)
      · rw [List.pairwise_cons]
        exact ⟨hy, hys⟩
    · rw [if_neg hxy, List.pairwise_cons]
      have hyx : ordinalLe y x = true := by
        rcases ordinalLe_total x y with h | h
        · exact absurd h hxy
        · exact h
      refine ⟨?_, ih hys⟩
      intro z hz
      have hz' := (insertProfile_perm x ys).mem_iff.mp hz
      rcases List.mem_cons.mp hz' with rfl | hz'
      · exact hyx
      · exact hy z hz'

/-- The sort output is sorted for the reflexive code-point order. -/
theorem sortProfiles_sorted (l : List String) :
    (sortProfiles l).Pairwise (fun a b => ordinalLe a b = true) := by
  induction l with
  | nil => simp [sortProfiles]
  | cons x xs ih => exact pairwise_insertProfile ih

/-- A weakly sorted duplicate-free list is strictly ascending. -/
theorem sorted_strict_of_nodup {names : List String}
    (hle : names.Pairwise (fun a b => ordinalLe a b = true))
    (hnd : names.Nodup) :
    names.Pairwise (fun a b => ordinalLt a b = true) :=
  (hle.and hnd).imp (fun h => ordinalLt_of_le_ne h.1 h.2)

/-! ## Claim theorems -/

/-- Claim C1, counterexample: for a driver whose `get_all_saved_passwords`
raises, the `load` worker crashes before its `self.after` line, so no
result mapping (in particular not the empty one) is delivered to the UI
thread and the render step is never triggered. -/
theorem c1_counterexample :
    load (some bad_fetch_driver) = LoadOutcome.crashed "netsh failure" ∧
    rendersResult (load (some bad_fetch_driver)) = false :=
  ⟨rfl, rfl⟩

/-- Claim C1 as amended: the fetched mapping is delivered back to the UI
thread and the render step is triggered exactly when the attempted
driver call does not raise (including the capability-absent cases, which
deliver the empty mapping); a fault raised by `get_all_saved_passwords`
or `get_saved_profiles` escapes the worker uncaught so nothing is
delivered and the render step never runs. -/
theorem c1_amended (drv : Driver) (m : List (String × Option String)) (ps : List String)
    (e : String) :
    (drv.get_all_saved_passwords = some (Except.ok m) →
      load (some drv) = LoadOutcome.delivered m) ∧
    (drv.get_all_saved_passwords = some (Except.error e) →
      load (some drv) = LoadOutcome.crashed e ∧ rendersResult (load (some drv)) = false) ∧
    (drv.get_all_saved_passwords = none → drv.get_saved_profiles = some (Except.error e) →
      load (some drv) = LoadOutcome.crashed e ∧ rendersResult (load (some drv)) = false) ∧
    (drv.get_all_saved_passwords = none → drv.get_saved_profiles = some (Except.ok ps) →
      load (some drv) = LoadOutcome.delivered (ps.map (fun p => (p, none)))) ∧
    (drv.get_all_saved_passwords = none → drv.get_saved_profiles = none →
      load (some drv) = LoadOutcome.delivered []) := by
  refine ⟨fun h => ?_, fun h => ?_, fun h1 h2 => ?_, fun h1 h2 => ?_, fun h1 h2 => ?_⟩
  · simp [load, h]
  · simp [load, h, rendersResult]
  · simp [load, h1, h2, rendersResult]
  · simp [load, h1, h2]
  · simp [load, h1, h2]

/-- Claim C1 witness: a driver exposing only the profile-name listing
delivers the name-to-absent mapping. -/
theorem c1_amended_witness :
    load (some profiles_only_driver) = LoadOutcome.delivered [("beta", none), ("alpha", none)] := by
  have h := (c1_amended profiles_only_driver [] ["beta", "alpha"] "x").2.2.2.1 rfl rfl
  simpa using h

/-- Claim C5: each `load` call attempts exactly one capability in the
fixed order bulk passwords, then profile listing, then nothing: a driver
exposing the bulk capability yields exactly its mapping whatever else it
exposes, the profile-listing fallback maps every listed name to an
absent password, and with neither capability (or no driver) the result
is the empty mapping. -/
theorem c5 (drv : Driver) (m : List (String × Option String)) (ps : List String) :
    (drv.get_all_saved_passwords = some (Except.ok m) →
      load (some drv) = LoadOutcome.delivered m) ∧
    (drv.get_all_saved_passwords = none → drv.get_saved_profiles = some (Except.ok ps) →
      load (some drv) = LoadOutcome.delivered (ps.map (fun p => (p, none)))) ∧
    (drv.get_all_saved_passwords = none → drv.get_saved_profiles = none →
      load (some drv) = LoadOutcome.delivered []) ∧
    load none = LoadOutcome.delivered [] := by
  refine ⟨fun h => ?_, fun h1 h2 => ?_, fun h1 h2 => ?_, rfl⟩
  · simp [load, h]
  · simp [load, h1, h2]
  · simp [load, h1, h2]

/-- Claim C5 witness: a driver exposing both capabilities delivers only
the bulk mapping; the profile listing is not merged in. -/
theorem c5_witness :
    load (some bulk_and_profiles_driver) = LoadOutcome.delivered [("Home", some "pw")] :=
  (c5 bulk_and_profiles_driver [("Home", some "pw")] []).1 rfl

/-- Claim C2, counterexample: when the current-connection query raises
after `connect` reported success, the fault message is delivered but the
outcome is reported with success status (info box, success icon), not as
a failure. -/
theorem c2_counterexample :
    do_test (some query_fault_driver) "HomeNet" = (true, "❌ Error: query failed") ∧
    show_test_result (do_test (some query_fault_driver) "HomeNet").1
        (do_test (some query_fault_driver) "HomeNet").2 =
      { btn_text := "✅", btn_enabled := true, msg_title := "Connection Test"
        msg_type := "info", message := "❌ Error: query failed" } :=
  ⟨rfl, rfl⟩

/-- Claim C2 as amended: every fault raised in the test sequence is
caught and the reported message embeds the fault description; the
outcome is reported as a failure (warning status) when the fault is
raised by the connect call, but a fault raised by the current-connection
query after connect has reported success is delivered with success
status even though the message carries the error text. -/
theorem c2_amended (drv : Driver) (p e : String)
    (connect_fn : String → Except String Bool) (hc : drv.connect = some connect_fn) :
    (connect_fn p = Except.error e →
      do_test (some drv) p = (false, "❌ Error: " ++ e) ∧
      (show_test_result (do_test (some drv) p).1 (do_test (some drv) p).2).msg_type =
        "warning") ∧
    (connect_fn p = Except.ok true → drv.get_current_connection = some (Except.error e) →
      do_test (some drv) p = (true, "❌ Error: " ++ e) ∧
      (show_test_result (do_test (some drv) p).1 (do_test (some drv) p).2).msg_type =
        "info") := by
  constructor
  · intro h
    have hd : do_test (some drv) p = (false, "❌ Error: " ++ e) := by
      simp [do_test, hc, h]
    exact ⟨hd, by simp [hd, show_test_result]⟩
  · intro h1 h2
    have hd : do_test (some drv) p = (true, "❌ Error: " ++ e) := by
      simp [do_test, hc, h1, h2]
    exact ⟨hd, by simp [hd, show_test_result]⟩

/-- Claim C2 witness: a raising connect call is reported as a failure
with the fault description embedded. -/
theorem c2_amended_witness :
    do_test (some connect_fault_driver) "Net" = (false, "❌ Error: boom") :=
  ((c2_amended connect_fault_driver "Net" "boom" (fun _ => Except.error "boom") rfl).1 rfl).1

/-- Claim C8: after `connect` returns true and with a current-connection
query present and not raising, a record matching the profile name yields
the verified-success message and any other outcome (mismatching record
or no record) yields the distinct connected-but-unverified message; the
two texts differ and the unverified case is still reported with
non-failure status. -/
theorem c8 (drv : Driver) (p : String) (connect_fn : String → Except String Bool)
    (current : Option CurrentConnection)
    (hc : drv.connect = some connect_fn) (hok : connect_fn p = Except.ok true)
    (hq : drv.get_current_connection = some (Except.ok current)) :
    do_test (some drv) p =
      (true,
        if currentMatches current p then "✅ Successfully connected to \x27" ++ p ++ "\x27"
        else "⚠️ Connection initiated but not verified") ∧
    ("✅ Successfully connected to \x27" ++ p ++ "\x27" : String) ≠
      "⚠️ Connection initiated but not verified" ∧
    (show_test_result true "⚠️ Connection initiated but not verified").msg_type = "info" ∧
    (show_test_result true "⚠️ Connection initiated but not verified").btn_text = "✅" := by
  refine ⟨?_, ?_, rfl, rfl⟩
  · simp only [do_test, hc, hok, hq]
    cases hcm : currentMatches current p <;> simp [hcm]
  intro hEq
  have hd := congrArg (fun s => s.data.head?) hEq
  simp [String.data_append] at hd

/-- Claim C8 witness: a driver reporting the matching network as current
yields the verified-success message. -/
theorem c8_witness :
    do_test (some verified_driver) "Net" = (true, "✅ Successfully connected to \x27Net\x27") := by
  have h := (c8 verified_driver "Net" (fun _ => Except.ok true)
    (some { ssid := "Net" }) rfl rfl rfl).1
  simpa [currentMatches] using h

/-- Claim C4: for a stored password the hidden display is a bullet mask
of length `min (length p) 12` — exactly `length p` bullets when the
length is at most 12 and exactly 12 otherwise — and an absent password
shows the fixed no-password text in both visibility states. -/
theorem c4 (name p : String) (vis : Bool) :
    ((PasswordRow.init name (some p)).get_password_display).length = min p.length 12 ∧
    (p.length ≤ 12 → ((PasswordRow.init name (some p)).get_password_display).length = p.length) ∧
    (12 < p.length → ((PasswordRow.init name (some p)).get_password_display).length = 12) ∧
    ({ PasswordRow.init name none with password_visible := vis }).get_password_display =
      "No password / Open network" := by
  have hlen : ((PasswordRow.init name (some p)).get_password_display).length = min p.length 12 := by
    show (List.replicate (min p.length 12) '•').length = min p.length 12
    exact List.length_replicate _ _
  refine ⟨hlen, fun h => ?_, fun h => ?_, rfl⟩
  · rw [hlen]; omega
  · rw [hlen]; omega

/-- Claim C4 witness: a six-character password masks to six bullets, a
twenty-character one to twelve, and an absent password shows the fixed
text even when visibility is on. -/
theorem c4_witness :
    ((PasswordRow.init "HomeNet" (some "secret")).get_password_display).length = 6 ∧
    ((PasswordRow.init "HomeNet" (some "averylongpassword123")).get_password_display).length = 12 ∧
    ({ PasswordRow.init "HomeNet" none with password_visible := true }).get_password_display =
      "No password / Open network" := by
  refine ⟨?_, ?_, (c4 "HomeNet" "x" true).2.2.2⟩
  · exact ((c4 "HomeNet" "secret" true).2.1 (by decide)).trans rfl
  · exact ((c4 "HomeNet" "averylongpassword123" true).2.2.1 (by decide)).trans rfl

/-- Claim C6: an empty entry mapping renders exactly the empty-state
message and zero rows; a nonempty one renders one row per entry, the row
names a permutation of the entry keys in weakly ascending code-point
order (strictly ascending when the keys are duplicate-free), and every
row starts hidden, with the idle enabled test button, and carries the
password stored for its profile. -/
theorem c6 (m : List (String × Option String)) :
    (m = [] →
      display_passwords m = DisplayResult.empty_state "No saved WiFi networks found" ∧
      rowsOf (display_passwords m) = []) ∧
    (m ≠ [] →
      ((rowsOf (display_passwords m)).map PasswordRow.profile_name).Perm (m.map Prod.fst) ∧
      ((rowsOf (display_passwords m)).map PasswordRow.profile_name).Pairwise
        (fun a b => ordinalLe a b = true) ∧
      ((m.map Prod.fst).Nodup →
        ((rowsOf (display_passwords m)).map PasswordRow.profile_name).Pairwise
          (fun a b => ordinalLt a b = true)) ∧
      (rowsOf (display_passwords m)).all
        (fun r => !r.password_visible && (r.test_btn_text == "🔗") && r.test_btn_enabled &&
          (r.password == dict_get m r.profile_name)) = true) := by
  constructor
  · intro h
    subst h
    exact ⟨rfl, rfl⟩
  · intro h
    have hne : m.isEmpty = false := by
      cases m with
      | nil => exact absurd rfl h
      | cons a l => rfl
    have hrows : rowsOf (display_passwords m) =
        (sortProfiles (m.map Prod.fst)).map (fun p => PasswordRow.init p (dict_get m p)) := by
      simp [display_passwords, hne, rowsOf]
    have hnames : (rowsOf (display_passwords m)).map PasswordRow.profile_name =
        sortProfiles (m.map Prod.fst) := by
      rw [hrows, List.map_map]
      simp [Function.comp_def, PasswordRow.init]
    refine ⟨?_, ?_, ?_, ?_⟩
    · rw [hnames]; exact sortProfiles_perm _
    · rw [hnames]; exact sortProfiles_sorted _
    · intro hnd
      rw [hnames]
      exact sorted_strict_of_nodup (sortProfiles_sorted _)
        ((sortProfiles_perm _).nodup_iff.mpr hnd)
    · rw [hrows]
      simp [List.all_eq_true, PasswordRow.init]

/-- Claim C6 witness: the empty mapping gives the empty state; a
two-entry mapping gives rows named by both keys in ascending order. -/
theorem c6_witness :
    display_passwords [] = DisplayResult.empty_state "No saved WiFi networks found" ∧
    ((rowsOf (display_passwords [("b", some "x"), ("a", none)])).map
      PasswordRow.profile_name).Perm ["b", "a"] ∧
    (rowsOf (display_passwords [("b", some "x"), ("a", none)])).map
      PasswordRow.profile_name = ["a", "b"] := by
  refine ⟨((c6 []).1 rfl).1, ?_, by decide⟩
  have h := ((c6 [("b", some "x"), ("a", none)]).2 (by decide)).1
  simpa using h

/-- Claim C7, counterexample: an entry whose stored password is the
empty string takes the no-password branch — the informational notice is
shown and nothing is written to the clipboard — although the claim says
every present password, including the empty string, is written. -/
theorem c7_counterexample :
    (PasswordRow.init "Cafe" (some "")).copy_password none =
      CopyEffect.info_notice "No password to copy" ∧
    (PasswordRow.init "Cafe" (some "")).copy_password none ≠ CopyEffect.copied "" "✓" :=
  ⟨rfl, by decide⟩

/-- Claim C7 as amended: copy with an absent password, or with the
empty-string password (falsy in the Python guard), shows the
informational notice and performs no clipboard operation; for every
nonempty stored password the clipboard receives exactly that password,
and a clipboard fault is surfaced as an error message embedding the
cause. -/
theorem c7_amended (name p e : String) (clip_fault : Option String) :
    ((PasswordRow.init name none).copy_password clip_fault =
      CopyEffect.info_notice "No password to copy") ∧
    ((PasswordRow.init name (some "")).copy_password clip_fault =
      CopyEffect.info_notice "No password to copy") ∧
    (p ≠ "" → (PasswordRow.init name (some p)).copy_password none = CopyEffect.copied p "✓") ∧
    (p ≠ "" → (PasswordRow.init name (some p)).copy_password (some e) =
      CopyEffect.copy_error ("Could not copy to clipboard: " ++ e)) := by
  refine ⟨rfl, rfl, fun h => ?_, fun h => ?_⟩ <;>
    simp [PasswordRow.init, PasswordRow.copy_password, h]

/-- Claim C7 witness: a nonempty password is written exactly to the
clipboard. -/
theorem c7_amended_witness :
    (PasswordRow.init "Cafe" (some "pw123")).copy_password none =
      CopyEffect.copied "pw123" "✓" :=
  (c7_amended "Cafe" "pw123" "x" none).2.2.1 (by decide)

/-- Claim C10: the present-but-empty password is treated inconsistently:
copy takes the no-password branch, export renders the literal
no-password text (same block as an absent password), while the row
display treats it as present — an empty zero-bullet mask distinct from
the fixed no-password label used for an absent password. -/
theorem c10 (name : String) :
    ((PasswordRow.init name (some "")).copy_password none =
      CopyEffect.info_notice "No password to copy") ∧
    export_entry_block name (some "") = export_entry_block name none ∧
    py_or_str (some "") "(no password)" = "(no password)" ∧
    (PasswordRow.init name (some "")).get_password_display = "" ∧
    (PasswordRow.init name (some "")).get_password_display ≠ "No password / Open network" ∧
    (PasswordRow.init name none).get_password_display = "No password / Open network" := by
  refine ⟨rfl, rfl, rfl, rfl, ?_, rfl⟩
  intro h
  exact (by decide : ¬ (("" : String) = "No password / Open network")) h

/-- Claim C10 witness: the empty-string password at a concrete profile
renders an empty mask yet exports as the no-password text. -/
theorem c10_witness :
    (PasswordRow.init "Cafe" (some "")).get_password_display = "" ∧
    export_entry_block "Cafe" (some "") = export_entry_block "Cafe" none :=
  ⟨(c10 "Cafe").2.2.2.1, (c10 "Cafe").2.1⟩

/-- Dict write then read: reading the written key sees the new value,
any other key is unaffected. -/
theorem getKey_setKey (st : Settings) (k1 k : String) (v : SettingVal) :
    getKey (setKey st k1 v) k = if k1 = k then some v else getKey st k := by
  induction st with
  | nil => simp [setKey, getKey]
  | cons kv rest ih =>
    obtain ⟨k2, v2⟩ := kv
    by_cases h1 : k2 = k1
    · subst h1
      by_cases h2 : k2 = k
      · subst h2
        simp [setKey, getKey]
      · simp [setKey, getKey, h2]
    · by_cases h2 : k2 = k
      · subst h2
        have h3 : ¬ k1 = k2 := fun h => h1 h.symm
        simp [setKey, getKey, h1, h3]
      · simp [setKey, getKey, h1, h2, ih]

/-- Reading after a dict update: the last updated occurrence of a key
wins, otherwise the original binding shows through. -/
theorem getKey_dict_update (entries : List (String × SettingVal)) (st : Settings) (k : String) :
    getKey (dict_update st entries) k =
      (match lastLookup entries k with
       | some v => some v
       | none => getKey st k) := by
  induction entries generalizing st with
  | nil => simp [dict_update, lastLookup]
  | cons kv rest ih =>
    obtain ⟨k1, v1⟩ := kv
    simp only [dict_update, lastLookup]
    rw [ih]
    cases h : lastLookup rest k with
    | some w => simp
    | none =>
      by_cases h2 : k1 = k
      · simp [h2, getKey_setKey]
      · simp [h2, getKey_setKey]

/-- Claim C9: settings loading overlays the persisted entries on the
defaults key by key (a persisted key wins, an unpersisted key falls back
to its default); a missing settings file yields exactly the defaults,
and a malformed one is caught — loading returns the defaults instead of
raising. -/
theorem c9 (entries : List (String × SettingVal)) (k : String) :
    load_settings SettingsFile.missing = default_settings ∧
    load_settings SettingsFile.malformed = default_settings ∧
    getKey (load_settings (SettingsFile.valid entries)) k =
      (match lastLookup entries k with
       | some v => some v
       | none => getKey default_settings k) :=
  ⟨rfl, rfl, getKey_dict_update entries default_settings k⟩

/-- Claim C9 witness: a persisted scan timeout overrides the default
while an unpersisted key keeps its default value. -/
theorem c9_witness :
    getKey (load_settings (SettingsFile.valid [("scan_timeout", SettingVal.int 60)]))
      "scan_timeout" = some (SettingVal.int 60) ∧
    getKey (load_settings (SettingsFile.valid [("scan_timeout", SettingVal.int 60)]))
      "theme" = some (SettingVal.str "dark") ∧
    load_settings SettingsFile.missing = default_settings := by
  refine ⟨?_, ?_, (c9 [] "x").1⟩
  · exact ((c9 [("scan_timeout", SettingVal.int 60)] "scan_timeout").2.2).trans (by decide)
  · exact ((c9 [("scan_timeout", SettingVal.int 60)] "theme").2.2).trans (by decide)

/-- Claim C3, counterexample: saving with the non-numeric scan timeout
"abc" leaves the persisted file untouched and aborts before the success
path, but the validation error shown quotes the offending value only —
it contains no fragment of the field name (neither "scan" nor
"timeout" in any capitalisation), so no error naming the offending
field is shown. -/
theorem c3_counterexample :
    (apply_settings bad_timeout_vars true default_settings (some default_settings)).file =
      some default_settings ∧
    (apply_settings bad_timeout_vars true default_settings (some default_settings)).shown_message =
      "Invalid value: invalid literal for int() with base 10: \x27abc\x27" ∧
    strContains (apply_settings bad_timeout_vars true default_settings
      (some default_settings)).shown_message "timeout" = false ∧
    strContains (apply_settings bad_timeout_vars true default_settings
      (some default_settings)).shown_message "Timeout" = false ∧
    strContains (apply_settings bad_timeout_vars true default_settings
      (some default_settings)).shown_message "scan" = false ∧
    strContains (apply_settings bad_timeout_vars true default_settings
      (some default_settings)).shown_message "Scan" = false ∧
    (apply_settings bad_timeout_vars true default_settings (some default_settings)).dialog_closed =
      false ∧
    (apply_settings bad_timeout_vars true default_settings
      (some default_settings)).theme_applied = none ∧
    (apply_settings bad_timeout_vars true default_settings
      (some default_settings)).callback_invoked = false ∧
    (apply_settings bad_timeout_vars true default_settings (some default_settings)).settings =
      default_settings := by
  decide

/-- Claim C3 as amended: a non-numeric integer field (scan timeout or
refresh interval) aborts the save before any write to the persisted
settings file — the file is unchanged — and an error box quoting the
offending value (the Python `int()` message, which does not name the
field) is shown; the theme application, completion callback and dialog
close of the success path do not run. -/
theorem c3_amended (v : FieldVars) (on_save_present : Bool) (st0 : Settings)
    (file0 : Option Settings) (e : String) (t : Int) :
    (pyInt v.timeout_var = Except.error e →
      apply_settings v on_save_present st0 file0 =
        { settings := st0, file := file0, theme_applied := none, callback_invoked := false
          shown_title := "Error", shown_message := "Invalid value: " ++ e
          shown_kind := "error", dialog_closed := false }) ∧
    (pyInt v.timeout_var = Except.ok t → pyInt v.interval_var = Except.error e →
      (apply_settings v on_save_present st0 file0).file = file0 ∧
      (apply_settings v on_save_present st0 file0).shown_message = "Invalid value: " ++ e ∧
      (apply_settings v on_save_present st0 file0).shown_kind = "error" ∧
      (apply_settings v on_save_present st0 file0).theme_applied = none ∧
      (apply_settings v on_save_present st0 file0).callback_invoked = false ∧
      (apply_settings v on_save_present st0 file0).dialog_closed = false) := by
  constructor
  · intro h
    simp [apply_settings, h]
  · intro h1 h2
    simp [apply_settings, h1, h2]

/-- Claim C3 witness: a concrete non-numeric refresh interval leaves the
persisted file unchanged and keeps the dialog open. -/
theorem c3_amended_witness :
    (apply_settings bad_interval_vars true default_settings (some default_settings)).file =
      some default_settings ∧
    (apply_settings bad_interval_vars true default_settings
      (some default_settings)).dialog_closed = false := by
  have h := (c3_amended bad_interval_vars true default_settings (some default_settings)
    "invalid literal for int() with base 10: \x273x0\x27" 15).2 rfl rfl
  exact ⟨h.1, h.2.2.2.2.2⟩
